import Mathlib

/-!
Verification of the resource-lifecycle layer of `pynng` (`src/pynng/nng.py`):
the socket/pipe bookkeeping, the pipe-event dispatcher `_nng_pipe_cb`, the
`Message` exactly-once disposal discipline, and the `dial` dispatch.

Shallow embedding conventions:
  * Native `nng_*` calls are external collaborators; each native call site is
    parameterized by the return code the engine would produce there.
  * A Python `raise` is modelled by returning `some e : Option Exc` next to the
    (unchanged, where relevant) object state; `none` means no exception.
  * A `with lock:` region of the source is modelled as a single atomic Lean
    function, which is exactly the serialization the lock provides.
-/

set_option autoImplicit false

namespace Pynng

/-- The exception classes that `src/pynng/nng.py` can raise or catch on the
paths verified here.  `nativeError code` stands for the generic engine-reported
error carrying its `nng` return code. -/
inductive Exc where
  | connectionRefused
  | messageStateError
  | valueError
  | typeError
  | keyError
  | nativeError (code : Nat)
  deriving DecidableEq

/-- Flag value `NNG_FLAG_NONBLOCK` of the native library (its numeric value is
immaterial to the proofs; all that matters is that it is distinct from `0`,
the flags of a blocking call). -/
def NNG_FLAG_NONBLOCK : Nat := 2

/-- The native error code `NNG_ECONNREFUSED`. -/
def NNG_ECONNREFUSED : Nat := 6

/-- Modelled from the spec: the error taxonomy of `pynng.exceptions` (not under
`src/`): a connection-refused engine code maps to `ConnectionRefused`, every
other nonzero engine code to the generic `NativeError(code)`. -/
def exc_of_code (ret : Nat) : Exc :=
  if ret = NNG_ECONNREFUSED then Exc.connectionRefused else Exc.nativeError ret

/-- Modelled from the spec: `check_err` of `pynng.exceptions` (not under
`src/`): raises nothing when the engine returned `0`, otherwise raises the
exception of the taxonomy for that code. -/
def check_err (ret : Nat) : Option Exc :=
  if ret = 0 then none else some (exc_of_code ret)

/-- Embedding of `Socket.dial` (src/pynng/nng.py:310-339).  `block` is the
`block` keyword argument (`some true` / `some false` / `none`); `env i` is the
return code of the `i`-th native `nng_dial` call this invocation makes.  The
result is the list of `flags` values passed to successive `nng_dial` calls, in
order, together with the exception finally raised (if any).

Source control flow: `if block:` does `self._dial(address, flags=0)`;
`elif block is None:` does `self.dial(address, block=False)` inside a
`try`, catches exactly `pynng.ConnectionRefused`, logs, and retries
`self.dial(address, block=False)`; `else:` does
`self._dial(address, flags=lib.NNG_FLAG_NONBLOCK)`.  Registration of the
resulting `Dialer` in `self._dialers` (src/pynng/nng.py:350-351) is elided:
no claim verified here depends on it. -/
def Socket.dial : Option Bool → (Nat → Nat) → List Nat × Option Exc
  | some true, env => ([0], check_err (env 0))
  | none, env =>
    match check_err (env 0) with
    | none => ([NNG_FLAG_NONBLOCK], none)
    | some e =>
      if e = Exc.connectionRefused then
        ([NNG_FLAG_NONBLOCK, NNG_FLAG_NONBLOCK], check_err (env 1))
      else
        ([NNG_FLAG_NONBLOCK], some e)
  | some false, env => ([NNG_FLAG_NONBLOCK], check_err (env 0))

/-- Claim C1: the claim (and the `dial` docstring, src/pynng/nng.py:323-326)
states that `block=None` first attempts a blocking dial and falls back to a
nonblocking dial only on `ConnectionRefused`.  The code contradicts its own
docstring: the first attempt of the `block=None` branch is
`self.dial(address, block=False)`, i.e. already a nonblocking dial
(`flags = NNG_FLAG_NONBLOCK`, not `0`), and the `ConnectionRefused` fallback
re-issues the same nonblocking dial.  This theorem evaluates the code at the
failing input: with `block=None` the first (and, on success, only) native dial
of the auto branch carries `NNG_FLAG_NONBLOCK ≠ 0`, unlike the `block=True`
branch whose dial carries flags `0`; on a refused first attempt the auto
branch issues two nonblocking dials; any other error propagates after a single
nonblocking attempt. -/
theorem dial_auto_first_attempt_is_nonblocking :
    (Socket.dial none (fun _ => 0)).1 = [NNG_FLAG_NONBLOCK] ∧
    NNG_FLAG_NONBLOCK ≠ 0 ∧
    (Socket.dial (some true) (fun _ => 0)).1 = [0] ∧
    (Socket.dial none (fun _ => NNG_ECONNREFUSED)).1
      = [NNG_FLAG_NONBLOCK, NNG_FLAG_NONBLOCK] ∧
    Socket.dial none (fun _ => 3) = ([NNG_FLAG_NONBLOCK], some (Exc.nativeError 3)) := by
  decide

/-- Embedding of class `Pipe` (src/pynng/nng.py:984-1102), restricted to the
state the verified claims touch: the pipe id (the copied native handle is
identified with its id, `nng_pipe_id` being injective on live pipes) and the
`_closed` flag set by `Pipe.close`. -/
structure Pipe where
  id : Nat
  closed : Bool
  deriving DecidableEq

/-- Embedding of class `Message` (src/pynng/nng.py:1105-1210), restricted to
the state the verified claims touch: the `_mem_freed` disposal flag and the
`_pipe` association.  The native buffer itself is tracked through the
release counts returned by the operations below. -/
structure Message where
  mem_freed : Bool
  pipe : Option Pipe
  deriving DecidableEq

/-- Embedding of `Message._ensure_can_send` (src/pynng/nng.py:1200-1210):
called with `_mem_freed_lock` held; raises `MessageStateError` when the
message was already disposed. -/
def Message.ensure_can_send (m : Message) : Option Exc :=
  if m.mem_freed then some Exc.messageStateError else none

/-- Embedding of `Message.__del__` (src/pynng/nng.py:1191-1198): under
`_mem_freed_lock`, a no-op when already disposed, otherwise one
`nng_msg_free` call and the flag is set.  Returns the new message state and
the number of native buffer releases performed. -/
def Message.del (m : Message) : Message × Nat :=
  if m.mem_freed then (m, 0)
  else ({ m with mem_freed := true }, 1)

/-- Embedding of `Socket.send_msg` (src/pynng/nng.py:561-571): the whole body
runs under `msg._mem_freed_lock`; first `msg._ensure_can_send()`, then
`check_err(lib.nng_sendmsg(...))` whose return code is `sendRet`, and only
after a successful send `msg._mem_freed = True`.  Returns the message state
and the exception raised (if any); on an exception the message state is the
input, because the Python body raises before mutating it. -/
def Socket.send_msg (m : Message) (sendRet : Nat) : Message × Option Exc :=
  match m.ensure_can_send with
  | some e => (m, some e)
  | none =>
    match check_err sendRet with
    | some e => (m, some e)
    | none => ({ m with mem_freed := true }, none)

/-- Embedding of `Socket.asend_msg` (src/pynng/nng.py:573-581): under
`msg._mem_freed_lock`, `msg._ensure_can_send()`, then delegation to
`_aio.AIOHelper.asend_msg` (outside `src/`), abstracted here as the
parameter `helper` (which, per the source comment, is what sets the
`_mem_freed` flag). -/
def Socket.asend_msg (m : Message) (helper : Message → Message × Option Exc) :
    Message × Option Exc :=
  match m.ensure_can_send with
  | some e => (m, some e)
  | none => helper m

/-- Embedding of `Context.send_msg` (src/pynng/nng.py:865-882): under
`msg._mem_freed_lock`, `msg._ensure_can_send()`, then
`check_err(nng_aio_alloc)`, `check_err(nng_aio_set_msg)`,
`check_err(nng_ctx_send)`, then `msg._mem_freed = True`, then
`check_err(nng_aio_wait)` and `check_err(nng_aio_result)`.  Each native
return code is a parameter, in call order.  The `finally: nng_aio_free(aio)`
frees the aio handle on every path and touches no modelled state. -/
def Context.send_msg (m : Message)
    (allocRet setMsgRet ctxSendRet waitRet resultRet : Nat) :
    Message × Option Exc :=
  match m.ensure_can_send with
  | some e => (m, some e)
  | none =>
    match check_err allocRet with
    | some e => (m, some e)
    | none =>
      match check_err setMsgRet with
      | some e => (m, some e)
      | none =>
        match check_err ctxSendRet with
        | some e => (m, some e)
        | none =>
          match check_err waitRet with
          | some e => ({ m with mem_freed := true }, some e)
          | none =>
            match check_err resultRet with
            | some e => ({ m with mem_freed := true }, some e)
            | none => ({ m with mem_freed := true }, none)

/-- Embedding of `Context.asend_msg` (src/pynng/nng.py:914-922): textually the
same body as `Socket.asend_msg` (lock, `_ensure_can_send`, delegate to the
aio helper, abstracted as `helper`). -/
def Context.asend_msg (m : Message) (helper : Message → Message × Option Exc) :
    Message × Option Exc :=
  match m.ensure_can_send with
  | some e => (m, some e)
  | none => helper m

/-- One serialized operation on a `Message`'s lifetime: a `Socket.send_msg`
whose native send returns `ret`, or the `__del__` teardown (an explicit free
and a garbage collection both run `__del__`).  The per-message lock makes
every concurrent interleaving of these operations a sequence. -/
inductive MsgOp where
  | opSend (ret : Nat)
  | opDel
  deriving DecidableEq

/-- Run one `MsgOp`, returning the new message state and the number of native
buffer releases it performed (a successful `nng_sendmsg` hands the buffer to
the engine: one release; a failed or refused send releases nothing;
`__del__` releases per `Message.del`). -/
def Message.step (m : Message) : MsgOp → Message × Nat
  | MsgOp.opSend ret =>
    let r := Socket.send_msg m ret
    (r.1, if r.2 = none then 1 else 0)
  | MsgOp.opDel => Message.del m

/-- Run a sequence of `MsgOp`s, accumulating the total number of native
buffer releases. -/
def Message.runOps (m : Message) : List MsgOp → Message × Nat
  | [] => (m, 0)
  | op :: ops =>
    let r := Message.step m op
    let s := Message.runOps r.1 ops
    (s.1, r.2 + s.2)

theorem Message.step_releases (m : Message) (op : MsgOp) :
    (Message.step m op).2 + (if m.mem_freed then 1 else 0)
      = if (Message.step m op).1.mem_freed then 1 else 0 := by
  cases op with
  | opSend ret =>
    simp only [Message.step, Socket.send_msg, Message.ensure_can_send, check_err]
    by_cases hm : m.mem_freed <;> by_cases hr : ret = 0 <;> simp [hm, hr]
  | opDel =>
    simp only [Message.step, Message.del]
    by_cases hm : m.mem_freed <;> simp [hm]

theorem Message.runOps_releases (m : Message) (l : List MsgOp) :
    (Message.runOps m l).2 + (if m.mem_freed then 1 else 0)
      = if (Message.runOps m l).1.mem_freed then 1 else 0 := by
  induction l generalizing m with
  | nil => simp [Message.runOps]
  | cons op ops ih =>
    have hstep := Message.step_releases m op
    have hrest := ih (Message.step m op).1
    simp only [Message.runOps]
    omega

theorem Message.step_del_freed (m : Message) :
    (Message.step m MsgOp.opDel).1.mem_freed = true := by
  simp only [Message.step, Message.del]
  by_cases hm : m.mem_freed <;> simp [hm]

theorem Message.runOps_append_del (m : Message) (l : List MsgOp) :
    (Message.runOps m (l ++ [MsgOp.opDel])).1.mem_freed = true := by
  induction l generalizing m with
  | nil => simpa [Message.runOps] using Message.step_del_freed m
  | cons op ops ih =>
    simp only [List.cons_append, Message.runOps]
    exact ih (Message.step m op).1

/-- Claim C2: `Message.__del__` on an already-disposed message (sent or
previously freed) is a no-op performing no `nng_msg_free`; on a
not-yet-disposed message it frees the buffer exactly once and sets the flag;
and from a freshly constructed message (`_mem_freed = False`,
src/pynng/nng.py:1136), any serialized interleaving of sends and frees that
ends in the garbage-collection `__del__` releases the native buffer exactly
once.  The per-message `_mem_freed_lock` serializes these operations, which
is what the `List MsgOp` sequencing models. -/
theorem message_buffer_freed_exactly_once (m : Message) (ops : List MsgOp) :
    Message.del { m with mem_freed := true } = ({ m with mem_freed := true }, 0) ∧
    Message.del { m with mem_freed := false } = ({ m with mem_freed := true }, 1) ∧
    (Message.runOps { mem_freed := false, pipe := none } (ops ++ [MsgOp.opDel])).2 = 1 := by
  refine ⟨by simp [Message.del], by simp [Message.del], ?_⟩
  have h := Message.runOps_releases { mem_freed := false, pipe := none } (ops ++ [MsgOp.opDel])
  have h2 := Message.runOps_append_del { mem_freed := false, pipe := none } ops
  simp only [h2, if_true] at h
  simpa using h

/-- Claim C3: a message whose disposal flag is set (it was successfully sent)
can never be sent again: `Socket.send_msg`, `Context.send_msg`,
`Socket.asend_msg` and `Context.asend_msg` all raise `MessageStateError`
(via `_ensure_can_send`) while holding `_mem_freed_lock`, before any native
send is issued and without touching the message state.  The
check-then-hand-off sequence is a single `with msg._mem_freed_lock:` region
in the source, modelled here as one atomic function. -/
theorem send_after_sent_raises_message_state_error (m : Message)
    (ret a b c w res : Nat) (hlp hlp2 : Message → Message × Option Exc) :
    Socket.send_msg { m with mem_freed := true } ret
      = ({ m with mem_freed := true }, some Exc.messageStateError) ∧
    Context.send_msg { m with mem_freed := true } a b c w res
      = ({ m with mem_freed := true }, some Exc.messageStateError) ∧
    Socket.asend_msg { m with mem_freed := true } hlp
      = ({ m with mem_freed := true }, some Exc.messageStateError) ∧
    Context.asend_msg { m with mem_freed := true } hlp2
      = ({ m with mem_freed := true }, some Exc.messageStateError) := by
  refine ⟨?_, ?_, ?_, ?_⟩ <;>
    simp [Socket.send_msg, Context.send_msg, Socket.asend_msg, Context.asend_msg,
      Message.ensure_can_send]

/-- Claim C10: `Socket.send_msg` is atomic in the message state: when the
native `nng_sendmsg` fails (nonzero code `r+1`), the error propagates and the
disposal flag is left `false`, so the very same message can still be sent
successfully afterwards; the flag becomes `true` only after a successful
native send.  By contrast `Context.send_msg` sets the flag as soon as
`nng_ctx_send` is issued (all three setup calls returned `0`), before
`nng_aio_wait`/`nng_aio_result` report the operation's outcome, whatever
that outcome is. -/
theorem socket_send_error_leaves_message_sendable (m : Message) (r w res : Nat) :
    Socket.send_msg { m with mem_freed := false } (r + 1)
      = ({ m with mem_freed := false }, some (exc_of_code (r + 1))) ∧
    Socket.send_msg { m with mem_freed := false } 0
      = ({ m with mem_freed := true }, none) ∧
    Socket.send_msg (Socket.send_msg { m with mem_freed := false } (r + 1)).1 0
      = ({ m with mem_freed := true }, none) ∧
    (Context.send_msg { m with mem_freed := false } 0 0 0 w res).1.mem_freed = true := by
  refine ⟨?_, ?_, ?_, ?_⟩
  · simp [Socket.send_msg, Message.ensure_can_send, check_err]
  · simp [Socket.send_msg, Message.ensure_can_send, check_err]
  · simp [Socket.send_msg, Message.ensure_can_send, check_err]
  · simp only [Context.send_msg, Message.ensure_can_send, check_err]
    by_cases hw : w = 0 <;> by_cases hres : res = 0 <;> simp [hw, hres]

/-- Key-value table embedding of a Python `dict` keyed by small integer ids
(the `_dialers`, `_listeners`, `_pipes` tables and the `_live_sockets`
registry).  Lookup of key `k` (`d[k]`). -/
def tblLookup {α : Type} : List (Nat × α) → Nat → Option α
  | [], _ => none
  | kv :: t, k => if kv.1 = k then some kv.2 else tblLookup t k

/-- `d[k] = v`: replace the entry for `k` if present, else append it. -/
def tblInsert {α : Type} : List (Nat × α) → Nat → α → List (Nat × α)
  | [], k, v => [(k, v)]
  | kv :: t, k, v => if kv.1 = k then (k, v) :: t else kv :: tblInsert t k v

/-- `del d[k]` (call sites only erase keys that are present). -/
def tblErase {α : Type} : List (Nat × α) → Nat → List (Nat × α)
  | [], _ => []
  | kv :: t, k => if kv.1 = k then tblErase t k else kv :: tblErase t k

theorem tblLookup_insert_self {α : Type} (t : List (Nat × α)) (k : Nat) (v : α) :
    tblLookup (tblInsert t k v) k = some v := by
  induction t with
  | nil => simp [tblInsert, tblLookup]
  | cons kv t ih =>
    by_cases h : kv.1 = k <;> simp [tblInsert, tblLookup, h, ih]

theorem tblLookup_erase_self {α : Type} (t : List (Nat × α)) (k : Nat) :
    tblLookup (tblErase t k) k = none := by
  induction t with
  | nil => simp [tblErase, tblLookup]
  | cons kv t ih =>
    by_cases h : kv.1 = k <;> simp [tblErase, tblLookup, h, ih]

/-- Abstraction of one registered pipe-event callback: whether the call
`cb(pipe)` closes the pipe (calls `pipe.close()`, setting its `_closed`
flag) and whether it raises an exception.  The dispatcher observes nothing
else about a hook. -/
structure Hook where
  closesPipe : Bool
  raises : Bool
  deriving DecidableEq

/-- Embedding of class `Socket`'s bookkeeping state (src/pynng/nng.py:265-272):
the `_dialers` and `_listeners` tables (only their key sets matter to the
claims verified here), the `_pipes` table, and the three ordered callback
lists `_on_pre_pipe_add`, `_on_post_pipe_add`, `_on_post_pipe_remove`.  The
`_pipe_notify_lock` is modelled by the dispatcher below being one atomic
function. -/
structure Socket where
  dialers : List Nat
  listeners : List Nat
  pipes : List (Nat × Pipe)
  on_pre_pipe_add : List Hook
  on_post_pipe_add : List Hook
  on_post_pipe_remove : List Hook
  deriving DecidableEq

/-- Run the callbacks of one list in registration order on a pipe, each call
wrapped in the source's `try: cb(pipe) except Exception: logger.exception`;
`i` is the registration index of the first hook.  Returns the pipe after all
hooks (its `_closed` flag accumulates the hooks' `close()` calls), the
number of logged (caught) exceptions, and the indices invoked in order. -/
def runHooksAux : List Hook → Pipe → Nat → Pipe × Nat × List Nat
  | [], p, _ => (p, 0, [])
  | h :: hs, p, i =>
    let p1 : Pipe := { p with closed := p.closed || h.closesPipe }
    let r := runHooksAux hs p1 (i + 1)
    (r.1, (if h.raises then 1 else 0) + r.2.1, i :: r.2.2)

/-- Run a whole callback list from registration index `0`. -/
def runHooks (hooks : List Hook) (p : Pipe) : Pipe × Nat × List Nat :=
  runHooksAux hooks p 0

theorem runHooksAux_trace (hs : List Hook) (p : Pipe) (i : Nat) :
    (runHooksAux hs p i).2.2 = List.range' i hs.length := by
  induction hs generalizing p i with
  | nil => simp [runHooksAux]
  | cons h t ih => simp [runHooksAux, ih, List.range'_succ]

theorem runHooksAux_logged (hs : List Hook) (p : Pipe) (i : Nat) :
    (runHooksAux hs p i).2.1 = hs.countP (fun h => h.raises) := by
  induction hs generalizing p i with
  | nil => simp [runHooksAux]
  | cons h t ih =>
    simp only [runHooksAux, List.countP_cons, ih]
    omega

theorem runHooksAux_closed (hs : List Hook) (p : Pipe) (i : Nat) :
    (runHooksAux hs p i).1.closed = (p.closed || hs.any (fun h => h.closesPipe)) := by
  induction hs generalizing p i with
  | nil => simp [runHooksAux]
  | cons h t ih => simp [runHooksAux, ih, Bool.or_assoc]

theorem runHooksAux_id (hs : List Hook) (p : Pipe) (i : Nat) :
    (runHooksAux hs p i).1.id = p.id := by
  induction hs generalizing p i with
  | nil => simp [runHooksAux]
  | cons h t ih => simp [runHooksAux, ih]

theorem runHooks_trace (hs : List Hook) (p : Pipe) :
    (runHooks hs p).2.2 = List.range hs.length := by
  simp [runHooks, runHooksAux_trace, List.range_eq_range']

/-- The three pipe lifecycle events of the native engine:
`NNG_PIPE_EV_ADD_PRE`, `NNG_PIPE_EV_ADD_POST`, `NNG_PIPE_EV_REM_POST`. -/
inductive PipeEv where
  | addPre
  | addPost
  | remPost
  deriving DecidableEq

/-- Everything one dispatch of the pipe callback produces: the socket state
after the dispatch, the trace of hook invocations `(event, registration
index)` in execution order, the number of caught-and-logged hook exceptions,
whether the `Could not find pipe for socket` debug message was logged, and
the exception escaping the callback into the FFI boundary (if any). -/
structure CbResult where
  sock : Socket
  trace : List (PipeEv × Nat)
  logged : Nat
  debugLogged : Bool
  err : Option Exc
  deriving DecidableEq

/-- Embedding of the body of `_nng_pipe_cb` (src/pynng/nng.py:934-981) after
the socket has been resolved, i.e. the region guarded by
`sock._pipe_notify_lock`.  `lib_pipe` is identified with its
`nng_pipe_id`.

* `ADD_PRE`: `sock._add_pipe(lib_pipe)` constructs `Pipe(lib_pipe, sock)`
  (its `_closed` flag starts `False`) and stores it under its id; the
  pre-add hooks then run in order, each in a `try/except` that logs; if the
  (hook-mutated) pipe is then flagged closed, `sock._remove_pipe(lib_pipe)`
  deletes it from the table before the callback returns.  The table entry is
  the very object the hooks mutate, so the final object is what is inserted
  or erased.
* `ADD_POST`: `sock._pipes[pipe_id]` — an unguarded lookup whose `KeyError`
  escapes the dispatcher when the id is absent; otherwise the post-add hooks
  run in order, each logged on exception.
* `REM_POST`: a guarded lookup; on `KeyError` it logs at debug level and
  returns; otherwise the post-remove hooks run in order inside a `try`
  whose `finally` performs `sock._remove_pipe(lib_pipe)` unconditionally. -/
def nng_pipe_cb_body (sock : Socket) (lib_pipe : Nat) (event : PipeEv) : CbResult :=
  let pipe_id := lib_pipe
  match event with
  | PipeEv.addPre =>
    let r := runHooks sock.on_pre_pipe_add (Pipe.mk pipe_id false)
    let pipes1 := tblInsert sock.pipes pipe_id r.1
    if r.1.closed then
      { sock := { sock with pipes := tblErase pipes1 pipe_id },
        trace := r.2.2.map (fun i => (PipeEv.addPre, i)),
        logged := r.2.1, debugLogged := false, err := none }
    else
      { sock := { sock with pipes := pipes1 },
        trace := r.2.2.map (fun i => (PipeEv.addPre, i)),
        logged := r.2.1, debugLogged := false, err := none }
  | PipeEv.addPost =>
    match tblLookup sock.pipes pipe_id with
    | none =>
      { sock := sock, trace := [], logged := 0, debugLogged := false,
        err := some Exc.keyError }
    | some p =>
      let r := runHooks sock.on_post_pipe_add p
      { sock := { sock with pipes := tblInsert sock.pipes pipe_id r.1 },
        trace := r.2.2.map (fun i => (PipeEv.addPost, i)),
        logged := r.2.1, debugLogged := false, err := none }
  | PipeEv.remPost =>
    match tblLookup sock.pipes pipe_id with
    | none =>
      { sock := sock, trace := [], logged := 0, debugLogged := true, err := none }
    | some p =>
      let r := runHooks sock.on_post_pipe_remove p
      { sock := { sock with pipes := tblErase sock.pipes pipe_id },
        trace := r.2.2.map (fun i => (PipeEv.remPost, i)),
        logged := r.2.1, debugLogged := false, err := none }

/-- The dispatch outcome at the process level: the updated `_live_sockets`
registry together with the per-socket dispatch observations. -/
structure GlobalCbResult where
  registry : List (Nat × Socket)
  trace : List (PipeEv × Nat)
  logged : Nat
  debugLogged : Bool
  err : Option Exc
  deriving DecidableEq

/-- Embedding of `_nng_pipe_cb` (src/pynng/nng.py:934-981): resolve the socket
from the `_live_sockets` registry by the correlation token `arg`
(`sock = _live_sockets[sock_id]`, an unguarded dict lookup that raises
`KeyError` when the socket is absent), then run the lock-guarded body. -/
def nng_pipe_cb (registry : List (Nat × Socket)) (lib_pipe : Nat)
    (event : PipeEv) (arg : Nat) : GlobalCbResult :=
  match tblLookup registry arg with
  | none =>
    { registry := registry, trace := [], logged := 0, debugLogged := false,
      err := some Exc.keyError }
  | some sock =>
    let r := nng_pipe_cb_body sock lib_pipe event
    { registry := tblInsert registry arg r.sock, trace := r.trace,
      logged := r.logged, debugLogged := r.debugLogged, err := r.err }

/-- Claim C4: if some pre-add hook closes the freshly constructed pipe
synchronously (here: an arbitrary pre-add list with an arbitrary closing
hook `Hook.mk true hk.raises` anywhere in it), then the pipe is gone from
the socket's pipe table before the dispatcher returns and the dispatch
raises nothing; afterwards, a post-add notification for that id runs no
hooks (the unguarded table lookup fails first) and a post-remove
notification for that id runs no hooks, mutates nothing, and only logs the
debug message. -/
theorem preadd_close_removes_pipe_and_skips_hooks
    (sock : Socket) (pid : Nat) (hooks1 hooks2 : List Hook) (hk : Hook) :
    let sock1 : Socket :=
      { sock with on_pre_pipe_add := hooks1 ++ (Hook.mk true hk.raises :: hooks2) }
    let r := nng_pipe_cb_body sock1 pid PipeEv.addPre
    tblLookup r.sock.pipes pid = none ∧
    r.err = none ∧
    (nng_pipe_cb_body r.sock pid PipeEv.addPost).trace = [] ∧
    (nng_pipe_cb_body r.sock pid PipeEv.addPost).sock = r.sock ∧
    (nng_pipe_cb_body r.sock pid PipeEv.remPost).trace = [] ∧
    (nng_pipe_cb_body r.sock pid PipeEv.remPost).sock = r.sock ∧
    (nng_pipe_cb_body r.sock pid PipeEv.remPost).debugLogged = true := by
  intro sock1 r
  have hclosed :
      (runHooks sock1.on_pre_pipe_add (Pipe.mk pid false)).1.closed = true := by
    simp [sock1, runHooks, runHooksAux_closed]
  have hr : r.sock.pipes
      = tblErase (tblInsert sock1.pipes pid
          (runHooks sock1.on_pre_pipe_add (Pipe.mk pid false)).1) pid := by
    simp only [r, nng_pipe_cb_body, hclosed, if_true]
  have hlk : tblLookup r.sock.pipes pid = none := by
    rw [hr]; exact tblLookup_erase_self _ _
  have herr : r.err = none := by
    simp only [r, nng_pipe_cb_body, hclosed, if_true]
  refine ⟨hlk, herr, ?_, ?_, ?_, ?_, ?_⟩ <;>
    simp [nng_pipe_cb_body, hlk]

/-- Claim C5: for every event the registered hooks run in registration order
(the invocation trace is exactly the indices `0, …, n-1` of the respective
callback list, whatever each hook does); a hook that raises is caught and
logged (one log entry per raising hook, and the dispatch itself raises
nothing); and a post-remove event for a pipe present in the table removes it
from the table even when post-remove hooks raise. -/
theorem pipe_hooks_run_in_order_and_removal_unconditional
    (sock : Socket) (pid : Nat) (p : Pipe) :
    let sock2 : Socket := { sock with pipes := tblInsert sock.pipes pid p }
    (nng_pipe_cb_body sock2 pid PipeEv.remPost).trace
      = (List.range sock.on_post_pipe_remove.length).map (fun i => (PipeEv.remPost, i)) ∧
    (nng_pipe_cb_body sock2 pid PipeEv.remPost).logged
      = sock.on_post_pipe_remove.countP (fun h => h.raises) ∧
    (nng_pipe_cb_body sock2 pid PipeEv.remPost).err = none ∧
    tblLookup (nng_pipe_cb_body sock2 pid PipeEv.remPost).sock.pipes pid = none ∧
    (nng_pipe_cb_body sock2 pid PipeEv.addPost).trace
      = (List.range sock.on_post_pipe_add.length).map (fun i => (PipeEv.addPost, i)) ∧
    (nng_pipe_cb_body sock2 pid PipeEv.addPost).logged
      = sock.on_post_pipe_add.countP (fun h => h.raises) ∧
    (nng_pipe_cb_body sock2 pid PipeEv.addPost).err = none ∧
    (nng_pipe_cb_body sock pid PipeEv.addPre).trace
      = (List.range sock.on_pre_pipe_add.length).map (fun i => (PipeEv.addPre, i)) ∧
    (nng_pipe_cb_body sock pid PipeEv.addPre).logged
      = sock.on_pre_pipe_add.countP (fun h => h.raises) ∧
    (nng_pipe_cb_body sock pid PipeEv.addPre).err = none := by
  intro sock2
  have hlk : tblLookup sock2.pipes pid = some p := tblLookup_insert_self _ _ _
  refine ⟨?_, ?_, ?_, ?_, ?_, ?_, ?_, ?_, ?_, ?_⟩
  · simp [nng_pipe_cb_body, hlk, runHooks_trace]
  · simp [nng_pipe_cb_body, hlk, runHooks, runHooksAux_logged]
  · simp [nng_pipe_cb_body, hlk]
  · simp only [nng_pipe_cb_body, hlk]
    exact tblLookup_erase_self _ _
  · simp [nng_pipe_cb_body, hlk, runHooks_trace]
  · simp [nng_pipe_cb_body, hlk, runHooks, runHooksAux_logged]
  · simp [nng_pipe_cb_body, hlk]
  · simp only [nng_pipe_cb_body]
    split <;> simp [runHooks_trace]
  · simp only [nng_pipe_cb_body]
    split <;> simp [runHooks, runHooksAux_logged]
  · simp only [nng_pipe_cb_body]
    split <;> simp

/-- Embedding of `Socket.close` (src/pynng/nng.py:365-378): calls
`lib.nng_close(self.socket)` (return code discarded, so a second close
raises nothing), then rebinds `self._listeners` and `self._dialers` to fresh
empty dicts.  `self._pipes` is not touched: pipes are torn down by the
engine asynchronously and leave the table only through `REM_POST`
notifications.  `__del__` (src/pynng/nng.py:377-378) re-runs this same
body. -/
def Socket.close (s : Socket) : Socket :=
  { s with listeners := [], dialers := [] }

/-- Claim C6, counterexample: the claim states that after `close()` returns
all three id-tables (dialers, listeners, pipes) are empty.  For a socket
whose pipe table holds one pipe, `close()` leaves that pipe table nonempty,
so the claim as stated is false. -/
theorem close_leaves_pipe_table_counterexample :
    ¬ ((Socket.close (Socket.mk [1] [2] [(3, Pipe.mk 3 false)] [] [] [])).dialers = [] ∧
       (Socket.close (Socket.mk [1] [2] [(3, Pipe.mk 3 false)] [] [] [])).listeners = [] ∧
       (Socket.close (Socket.mk [1] [2] [(3, Pipe.mk 3 false)] [] [] [])).pipes = []) := by
  decide

/-- Claim C6, amended: after `Socket.close()` returns, the dialer and
listener tables are empty; the pipe table is left exactly as it was (it
empties only asynchronously, via engine `REM_POST` notifications); and
`close` is idempotent — a second call leaves the state unchanged and raises
nothing (the body is total and the `nng_close` return code is discarded). -/
theorem close_clears_dialers_listeners_and_is_idempotent (s : Socket) :
    (Socket.close s).dialers = [] ∧
    (Socket.close s).listeners = [] ∧
    (Socket.close s).pipes = s.pipes ∧
    Socket.close (Socket.close s) = Socket.close s := by
  simp [Socket.close]

/-- Claim C8, counterexample: the claim states that a pipe event whose
correlation token resolves to no live socket makes the dispatcher a no-op
that completes without raising.  With an empty registry the unguarded
lookup `_live_sockets[sock_id]` raises `KeyError`, which escapes the
dispatcher (it is suppressed only at the cffi boundary), so the
"completes without raising an unhandled error" half of the claim is false. -/
theorem pipe_cb_unknown_socket_raises_keyerror :
    ¬ ((nng_pipe_cb [] 1 PipeEv.remPost 5).err = none) := by
  decide

/-- Claim C8, amended: for every pipe event whose correlation token is absent
from the registry, the dispatcher mutates no state — the registry is
returned unchanged, no hook runs, nothing is logged — but it is not
exception-free: the unguarded registry lookup raises `KeyError`, which the
dispatcher lets escape to the FFI boundary. -/
theorem pipe_cb_unknown_socket_mutates_nothing (registry : List (Nat × Socket))
    (lib_pipe : Nat) (event : PipeEv) (arg : Nat) :
    nng_pipe_cb (tblErase registry arg) lib_pipe event arg
      = { registry := tblErase registry arg, trace := [], logged := 0,
          debugLogged := false, err := some Exc.keyError } := by
  simp [nng_pipe_cb, tblLookup_erase_self]

/-- The keyword-argument options `Socket.__init__` applies when they are not
`None` (src/pynng/nng.py:280-293), in source order. -/
inductive OptName where
  | recv_timeout
  | send_timeout
  | recv_max_size
  | reconnect_time_min
  | reconnect_time_max
  | recv_buffer_size
  | send_buffer_size
  deriving DecidableEq

/-- The externally visible steps of `Socket.__init__` (src/pynng/nng.py:249-308),
in program order: open the native handle (`self._opener(self._socket)`), set
each supplied option, arm the pipe-event notification for the three events
(`nng_pipe_notify`), process the `listen` and `dial` keyword requests, and
finally register the socket in the `_live_sockets` registry. -/
inductive InitStep where
  | openHandle
  | setOption (o : OptName)
  | armPipeNotify (ev : PipeEv)
  | listen
  | dial
  | registerLiveSocket
  deriving DecidableEq

/-- Which keyword arguments `Socket.__init__` was given (`true` = supplied,
i.e. not `None`). -/
structure InitArgs where
  recv_timeout : Bool
  send_timeout : Bool
  recv_max_size : Bool
  reconnect_time_min : Bool
  reconnect_time_max : Bool
  recv_buffer_size : Bool
  send_buffer_size : Bool
  listen : Bool
  dial : Bool
  deriving DecidableEq

/-- Embedding of the step order of `Socket.__init__` (src/pynng/nng.py:249-308):
option writes in source order, then the three `nng_pipe_notify` calls
(ADD_PRE, ADD_POST, REM_POST), then `self.listen(listen)` if supplied, then
`self.dial(dial, ...)` if supplied, and `_live_sockets[id(self)] = self` as
the very last statement. -/
def Socket.initTrace (a : InitArgs) : List InitStep :=
  [InitStep.openHandle]
  ++ (if a.recv_timeout then [InitStep.setOption OptName.recv_timeout] else [])
  ++ (if a.send_timeout then [InitStep.setOption OptName.send_timeout] else [])
  ++ (if a.recv_max_size then [InitStep.setOption OptName.recv_max_size] else [])
  ++ (if a.reconnect_time_min then [InitStep.setOption OptName.reconnect_time_min] else [])
  ++ (if a.reconnect_time_max then [InitStep.setOption OptName.reconnect_time_max] else [])
  ++ (if a.recv_buffer_size then [InitStep.setOption OptName.recv_buffer_size] else [])
  ++ (if a.send_buffer_size then [InitStep.setOption OptName.send_buffer_size] else [])
  ++ [InitStep.armPipeNotify PipeEv.addPre, InitStep.armPipeNotify PipeEv.addPost,
      InitStep.armPipeNotify PipeEv.remPost]
  ++ (if a.listen then [InitStep.listen] else [])
  ++ (if a.dial then [InitStep.dial] else [])
  ++ [InitStep.registerLiveSocket]

/-- Index of the first occurrence of a step in a trace. -/
def idxOf (s : InitStep) (l : List InitStep) : Nat :=
  l.findIdx (fun t => decide (t = s))

/-- Claim C7, counterexample: the claim states that the socket registers
itself in the socket registry before any construction-time listen or dial
request is processed.  For a construction with a `dial` request (and no
other keyword arguments), the trace contains both steps and the `dial` step
comes strictly before the `registerLiveSocket` step — registration is the
last statement of `__init__` — so the claim as stated is false. -/
theorem init_registers_after_dial_counterexample :
    InitStep.dial ∈ Socket.initTrace
      (InitArgs.mk false false false false false false false false true) ∧
    InitStep.registerLiveSocket ∈ Socket.initTrace
      (InitArgs.mk false false false false false false false false true) ∧
    idxOf InitStep.dial (Socket.initTrace
        (InitArgs.mk false false false false false false false false true))
      < idxOf InitStep.registerLiveSocket (Socket.initTrace
        (InitArgs.mk false false false false false false false false true)) := by
  decide

/-- Claim C7, amended: whatever keyword arguments are supplied, the
`_live_sockets` registration is the last construction step; what does
precede every construction-time `listen`/`dial` is the arming of the
pipe-event notification, while the registry registration follows both, so a
pipe event fired by an immediately-established connection reaches the
dispatcher before the socket is in the registry. -/
theorem socket_init_step_order (b1 b2 b3 b4 b5 b6 b7 bl bd : Bool) :
    (Socket.initTrace (InitArgs.mk b1 b2 b3 b4 b5 b6 b7 bl bd)).getLast?
      = some InitStep.registerLiveSocket ∧
    idxOf (InitStep.armPipeNotify PipeEv.addPre)
        (Socket.initTrace (InitArgs.mk b1 b2 b3 b4 b5 b6 b7 true true))
      < idxOf InitStep.listen
        (Socket.initTrace (InitArgs.mk b1 b2 b3 b4 b5 b6 b7 true true)) ∧
    idxOf InitStep.listen
        (Socket.initTrace (InitArgs.mk b1 b2 b3 b4 b5 b6 b7 true true))
      < idxOf InitStep.dial
        (Socket.initTrace (InitArgs.mk b1 b2 b3 b4 b5 b6 b7 true true)) ∧
    idxOf InitStep.dial
        (Socket.initTrace (InitArgs.mk b1 b2 b3 b4 b5 b6 b7 true true))
      < idxOf InitStep.registerLiveSocket
        (Socket.initTrace (InitArgs.mk b1 b2 b3 b4 b5 b6 b7 true true)) := by
  revert b1 b2 b3 b4 b5 b6 b7 bl bd
  decide

/-- A Python value assigned to `Message.pipe`: either a `Pipe` instance or one
of the non-`Pipe` values (`None`, an `int`, a `str`). -/
inductive PyVal where
  | pipeVal (p : Pipe)
  | noneVal
  | intVal (n : Nat)
  | strVal
  deriving DecidableEq

/-- The `isinstance(pipe, Pipe)` test of the setter. -/
def PyVal.isPipe : PyVal → Bool
  | PyVal.pipeVal _ => true
  | _ => false

/-- Embedding of the `Message.pipe` property setter (src/pynng/nng.py:1159-1165):
if the assigned value is not a `Pipe`, raise `ValueError` (before touching
any state); otherwise `check_err(lib.nng_msg_set_pipe(...))` with native
return code `setPipeRet`, and on success store the association in
`self._pipe`.  Returns the message state and the raised exception, if any;
on an exception the state is the unchanged input. -/
def Message.set_pipe (m : Message) (v : PyVal) (setPipeRet : Nat) :
    Message × Option Exc :=
  match v with
  | PyVal.pipeVal p =>
    match check_err setPipeRet with
    | some e => (m, some e)
    | none => ({ m with pipe := some p }, none)
  | _ => (m, some Exc.valueError)

/-- Claim C9, counterexample: the claim states that assigning a non-`Pipe`
value to `Message.pipe` fails with a `TypeError`-class error.  The source
raises `ValueError` (src/pynng/nng.py:1163), which is not `TypeError`:
assigning `None` to a fresh message raises `ValueError` and leaves the
message unchanged. -/
theorem set_pipe_nonpipe_raises_valueerror :
    Message.set_pipe (Message.mk false none) PyVal.noneVal 0
      = (Message.mk false none, some Exc.valueError) ∧
    Exc.valueError ≠ Exc.typeError := by
  decide

/-- Claim C9, amended: assigning any non-`Pipe` value to `Message.pipe`
raises `ValueError` (not `TypeError`) and leaves the message — in particular
its pipe association — unchanged; assigning a `Pipe` succeeds (native call
permitting) and associates the message with that pipe for subsequent
directed send; a failing native `nng_msg_set_pipe` propagates its error with
the association unchanged. -/
theorem set_pipe_behavior (m : Message) (p : Pipe) (n r : Nat) :
    Message.set_pipe m PyVal.noneVal r = (m, some Exc.valueError) ∧
    Message.set_pipe m (PyVal.intVal n) r = (m, some Exc.valueError) ∧
    Message.set_pipe m PyVal.strVal r = (m, some Exc.valueError) ∧
    Message.set_pipe m (PyVal.pipeVal p) 0 = ({ m with pipe := some p }, none) ∧
    Message.set_pipe m (PyVal.pipeVal p) (r + 1)
      = (m, some (exc_of_code (r + 1))) := by
  refine ⟨rfl, rfl, rfl, ?_, ?_⟩ <;> simp [Message.set_pipe, check_err]

end Pynng
